import Mathlib

/-!
Verification of the combat / world-simulation core of the `tyrantofthedarkskies`
MUD server.  The Python source is shallowly embedded: pure computations become
Lean functions, the random draws of an operation become explicit oracle inputs,
and the mutable records (room state, spawn timers, the entity store) become
explicit state values threaded through the operations.  Timestamps, kept as
floating-point seconds in the source, are embedded as integers: every operation
the claims touch is addition and order comparison, so nothing depends on the
discretisation.  The one floating-point computation that matters — the Python
builtin `round` applied to `absorbed * piece_dr / total_dr` in
`apply_armor_damage_reduction` — is embedded exactly as round-half-to-even of
the rational quotient (`roundHalfEvenDiv` below), which agrees with the float
computation on the small game quantities involved.
-/

namespace Tyrant

/-- Round `num / den` (for `den > 0`) to the nearest integer, ties to the even
integer: the semantics of the Python builtin `round` applied to the exact
quotient.  `q` is the floor of the quotient and `r` the remainder, so the
quotient sits `r / den` above `q`. -/
def roundHalfEvenDiv (num : ℤ) (den : ℤ) : ℤ :=
  let q : ℤ := Int.fdiv num den
  let r : ℤ := num - q * den
  if 2 * r < den then q
  else if den < 2 * r then q + 1
  else if q % 2 = 0 then q else q + 1

/-- Python floor division `//` on integers. -/
def pyFloorDiv (a b : ℤ) : ℤ := Int.fdiv a b

/-- Association-list lookup, the embedding of a keyed document read
(`dict.get` / a per-record store read). -/
def alistLookup {κ α : Type} [DecidableEq κ] : List (κ × α) → κ → Option α
  | [], _ => none
  | e :: t, k => if e.1 = k then some e.2 else alistLookup t k

/-- Association-list delete, the embedding of a keyed document delete. -/
def alistRemove {κ α : Type} [DecidableEq κ] : List (κ × α) → κ → List (κ × α)
  | [], _ => []
  | e :: t, k => if e.1 = k then alistRemove t k else e :: alistRemove t k

/-! ### Player skill checks (src/models/player.py) -/

/-- `Player.get_attribute_bonus` (src/models/player.py:181):
`(attribute - 5) // 2`. -/
def get_attribute_bonus (attr : ℤ) : ℤ := pyFloorDiv (attr - 5) 2

/-- Result classification of `Player.roll_skill_check` (src/models/player.py:208). -/
inductive SkillResult | critical | success | critical_failure | failure
deriving DecidableEq, Repr

/-- `Player.roll_skill_check` classification: with `effective_skill` and a d100
`roll`, the result is `critical` if `roll ≤ effective_skill / 10` (integer
division), `success` if `roll ≤ effective_skill`, `critical_failure` if
`roll ≥ 95`, else `failure`. -/
def skillCheckResult (roll effective_skill : ℕ) : SkillResult :=
  if roll ≤ effective_skill / 10 then .critical
  else if roll ≤ effective_skill then .success
  else if 95 ≤ roll then .critical_failure
  else .failure

/-! ### Armor mitigation (src/systems/combat_system.py:12-44) -/

/-- Damage types carried by weapons and armor damage-reduction tables. -/
inductive DamageType | slashing | piercing | bludgeoning
deriving DecidableEq, Repr

/-- One equipped item as seen by `apply_armor_damage_reduction`: the
`is_armor()` flag, the `damage_reduction` mapping and the current `armor_hp`
durability pool. -/
structure ArmorPiece where
  is_armor : Bool
  damage_reduction : List (DamageType × ℕ)
  armor_hp : ℕ
deriving DecidableEq, Repr

/-- DR of a piece for one damage type: `piece.damage_reduction.get(damage_type, 0)`. -/
def drFor (piece : ArmorPiece) (dt : DamageType) : ℕ :=
  (alistLookup piece.damage_reduction dt).getD 0

/-- A piece contributes iff it is armor and carries positive DR for the
incoming damage type (src/systems/combat_system.py:25-29). -/
def contributes (piece : ArmorPiece) (dt : DamageType) : Bool :=
  piece.is_armor && decide (0 < drFor piece dt)

/-- `total_dr = Σ piece_dr` over the contributing pieces
(src/systems/combat_system.py:32). -/
def totalDR (pieces : List ArmorPiece) (dt : DamageType) : ℕ :=
  (pieces.map fun p => if contributes p dt then drFor p dt else 0).sum

/-- The durability share assigned to one contributing piece
(src/systems/combat_system.py:38):
`max(0, int(round(absorbed * piece_dr / total_dr)))`. -/
def armorShare (absorbed : ℤ) (piece_dr total_dr : ℕ) : ℕ :=
  (max 0 (roundHalfEvenDiv (absorbed * piece_dr) total_dr)).toNat

/-- Modelled from the spec: `reduce_armor_hp` of an armor item.  The item class
implementing it is not part of src/ — `apply_armor_damage_reduction` only calls
it through `hasattr` — so it is taken from spec 4.H step 4 (reduce the armor_hp
pool of the piece by the assigned amount; the pool cannot go below zero, after
which the piece is broken), in analogy with `Item.reduce_durability`
(src/mud_server.py:329). -/
def reduce_armor_hp (piece : ArmorPiece) (amount : ℕ) : ArmorPiece :=
  { piece with armor_hp := piece.armor_hp - amount }

/-- `apply_armor_damage_reduction` (src/systems/combat_system.py:12-44).
Gathers the contributing pieces among the equipped ones, computes
`damage_after = max(1, damage - total_dr)` and `absorbed = damage -
damage_after`, and degrades each contributing piece by its rounded share of
`absorbed`.  Returns the final damage together with the updated equipped
pieces. -/
def apply_armor_damage_reduction (pieces : List ArmorPiece) (damage : ℤ)
    (dt : DamageType) : ℤ × List ArmorPiece :=
  if (pieces.filter fun p => contributes p dt) = [] then (damage, pieces)
  else
    let total := totalDR pieces dt
    let damage_after := max 1 (damage - total)
    let absorbed := damage - damage_after
    (damage_after,
     pieces.map fun p =>
       if contributes p dt then reduce_armor_hp p (armorShare absorbed (drFor p dt) total)
       else p)

/-! ### Attack resolution (src/systems/combat_system.py:519-663) -/

/-- Hit determination of `CombatManager._process_attack`
(src/systems/combat_system.py:578-600): the attack hits iff the attacker
accuracy roll succeeds (`roll_A ≤ eff_A`) and either the attacker roll is
strictly below the defender roll (`roll_A < roll_T`) or the defender dodge roll
failed (`roll_T > eff_T`). -/
def attackHits (roll_A eff_A roll_T eff_T : ℕ) : Bool :=
  if roll_A ≤ eff_A then
    if roll_A < roll_T ∨ roll_T > eff_T then true else false
  else false

/-- Glancing-hit test of `_process_attack` (src/systems/combat_system.py:596):
`defender_roll ≤ defender_effective and defender_roll ≥ defender_effective * 0.8`.
The real-arithmetic threshold `eff_T * 0.8` is embedded as the exact rational
test `4 * eff_T ≤ 5 * roll_T`. -/
def isGlancingHit (roll_T eff_T : ℕ) : Bool :=
  roll_T ≤ eff_T ∧ 4 * eff_T ≤ 5 * roll_T

/-- The critical flag of a confirmed hit (src/systems/combat_system.py:583-593):
critical when the accuracy check itself was `critical`, otherwise when the
per-weapon (or unarmed 1%) crit draw procs; that draw is the oracle `critProc`. -/
def isCriticalHit (roll_A eff_A : ℕ) (critProc : Bool) : Bool :=
  if skillCheckResult roll_A eff_A = .critical then true else critProc

/-- Damage of a confirmed hit (src/systems/combat_system.py:610-636).
With a weapon (`weaponDamageRoll = some roll`): `base = roll +
get_attribute_bonus physical`, doubled on a critical, halved (floor, minimum 1)
on a glancing hit.  Unarmed (`none`): `base = 1`, and the attribute bonus is
not added — the unarmed branch never consults the physical attribute. -/
def hitDamage (weaponDamageRoll : Option ℤ) (physical : ℤ)
    (critical glancing : Bool) : ℤ :=
  match weaponDamageRoll with
  | some roll =>
      let base := roll + get_attribute_bonus physical
      if critical then base * 2
      else if glancing then max 1 (pyFloorDiv base 2)
      else base
  | none =>
      let base : ℤ := 1
      if critical then base * 2
      else if glancing then max 1 (pyFloorDiv base 2)
      else base

/-- Outcome of one `_process_attack` resolution. -/
structure AttackOutcome where
  hit : Bool
  critical : Bool
  glancing : Bool
  damage : ℤ
  targetHealth : ℤ
deriving DecidableEq, Repr

/-- `CombatManager._process_attack` (src/systems/combat_system.py:519-663),
resolution core: hit contest, critical/glancing flags, damage, armor mitigation
and the damage application ending in the clamp `target.health = max(0,
target.health)`.  The dice are oracle inputs: `roll_A`/`roll_T` the d100
accuracy/dodge rolls, `eff_A`/`eff_T` the effective skills, `weaponDamageRoll =
some r` the weapon damage roll (`none` when unarmed), `critProc` the
weapon/unarmed crit draw.  `armorReduce` abstracts the armor mitigation step
applied to the damage of a confirmed hit (the identity when the target has no
contributing armor or no item catalog is available). -/
def processAttack (roll_A eff_A roll_T eff_T : ℕ)
    (weaponDamageRoll : Option ℤ) (physical : ℤ) (critProc : Bool)
    (armorReduce : ℤ → ℤ) (targetHealth : ℤ) : AttackOutcome :=
  if attackHits roll_A eff_A roll_T eff_T then
    let critical := isCriticalHit roll_A eff_A critProc
    let glancing := isGlancingHit roll_T eff_T
    let damage := armorReduce (hitDamage weaponDamageRoll physical critical glancing)
    { hit := true, critical := critical, glancing := glancing,
      damage := damage, targetHealth := max 0 (targetHealth - damage) }
  else
    { hit := false, critical := false, glancing := false,
      damage := 0, targetHealth := targetHealth }

/-! ### Runtime state store (src/systems/runtime_state.py) -/

/-- One spawn timer entry of a room state.  The source reads each field with
`entry.get(field, 0)`, so a missing entry is the all-zero record. -/
structure SpawnTimer where
  last_spawn_at : ℤ
  next_spawn_at : ℤ
  alive_count : ℕ
deriving DecidableEq, Repr

/-- `RuntimeStateService.try_consume_spawn_eligibility`
(src/systems/runtime_state.py:141-175): the transaction body `_do` applied to
the stored timer.  Succeeds iff `alive_count < max_alive and now >=
next_spawn_at`; on success the same commit increments `alive_count`, stamps
`last_spawn_at = now` and sets `next_spawn_at = now + cooldown_seconds`; on
failure nothing is written.  The storage transaction primitive itself lives
outside src/ (spec 6: a function receives a snapshot of one document and
returns a new value, re-run on conflicts), which makes each call one atomic
step on the stored timer. -/
def try_consume_spawn_eligibility (t : SpawnTimer) (now : ℤ) (max_alive : ℕ)
    (cooldown_seconds : ℤ) : Bool × SpawnTimer :=
  if t.alive_count < max_alive ∧ t.next_spawn_at ≤ now then
    (true, { last_spawn_at := now, next_spawn_at := now + cooldown_seconds,
             alive_count := t.alive_count + 1 })
  else (false, t)

/-- A sequence of `try_consume_spawn_eligibility` calls with a fixed
`max_alive`, each supplying its own `now` and `cooldown_seconds`. -/
def runSpawnCalls (max_alive : ℕ) (t : SpawnTimer) : List (ℤ × ℤ) → SpawnTimer
  | [] => t
  | (now, cooldown) :: rest =>
      runSpawnCalls max_alive (try_consume_spawn_eligibility t now max_alive cooldown).2 rest

/-- Default reset window, `DEFAULT_RESET_SECONDS` (src/systems/runtime_state.py:17). -/
def DEFAULT_RESET_SECONDS : ℤ := 3600

/-- The room-state fields touched by `maybe_reset_room`
(src/systems/runtime_state.py:322-337). -/
structure RoomState where
  seed : ℕ
  created_at : ℤ
  last_active_at : ℤ
  last_reset_at : ℤ
  next_reset_at : ℤ
  state_version : ℕ
deriving DecidableEq, Repr

/-- `RuntimeStateService.maybe_reset_room` (src/systems/runtime_state.py:322-337):
when `next_reset_at <= now`, stamp `last_reset_at = now`, set `next_reset_at =
now + DEFAULT_RESET_SECONDS`, refresh `seed = int(now) % 2**31` and bump
`state_version`; otherwise return the state unchanged. -/
def maybe_reset_room (s : RoomState) (now : ℤ) : RoomState :=
  if s.next_reset_at ≤ now then
    { s with last_reset_at := now,
             next_reset_at := now + DEFAULT_RESET_SECONDS,
             seed := (now % 2 ^ 31).toNat,
             state_version := s.state_version + 1 }
  else s

/-- The instance fields `get_entities_in_room` consults
(src/systems/runtime_state.py:177-201). -/
structure EntityInstance where
  template_id : String
  entity_type : String
  created_at : ℤ
  expires_at : Option ℤ
  encounter_id : Option String
deriving DecidableEq, Repr

/-- One entity position record: `instance_id → room_id`
(src/systems/runtime_state.py / spec 3, Entity Position). -/
structure EntityPosition where
  instance_id : String
  room_id : String
deriving DecidableEq, Repr

/-- The two runtime collections behind the entity layer: the
`entity_instance` records keyed by instance id and the `entity_position`
records.  Modelled from the spec: the document store itself (per-record
get/set/delete, spec 6) is not part of src/, so it is embedded as these two
in-memory collections. -/
structure EntityStore where
  instances : List (String × EntityInstance)
  positions : List EntityPosition
deriving DecidableEq, Repr

/-- Modelled from the spec: `load_entity_positions_for_room` of the data layer
(a query for the position records whose `room_id` equals the given room). -/
def load_entity_positions_for_room (store : EntityStore) (room_id : String) :
    List EntityPosition :=
  store.positions.filter fun p => decide (p.room_id = room_id)

/-- Modelled from the spec: `load_entity_instance` of the data layer (a keyed
document read). -/
def load_entity_instance (store : EntityStore) (instance_id : String) :
    Option EntityInstance :=
  alistLookup store.instances instance_id

/-- `RuntimeStateService.remove_entity_from_world`
(src/systems/runtime_state.py:300-308): delete the position record of the
instance, and when `delete_instance` is set also delete the instance record. -/
def remove_entity_from_world (store : EntityStore) (instance_id : String)
    (delete_instance : Bool) : EntityStore :=
  { instances := if delete_instance then alistRemove store.instances instance_id
                 else store.instances,
    positions := store.positions.filter fun p => decide (¬ p.instance_id = instance_id) }

/-- Expiry test of `get_entities_in_room` (src/systems/runtime_state.py:195-196):
`expires_at is not None and expires_at <= now`. -/
def instanceExpired (inst : EntityInstance) (now : ℤ) : Bool :=
  match inst.expires_at with
  | some t => t ≤ now
  | none => false

/-- The loop body of `get_entities_in_room` (src/systems/runtime_state.py:188-200)
over the pre-loaded position list: skip positions with no instance record,
remove expired instances from the world, and combine the rest with their
position record. -/
def collectEntities (now : ℤ) (store : EntityStore) :
    List EntityPosition → List (EntityInstance × EntityPosition) × EntityStore
  | [] => ([], store)
  | pos :: rest =>
      match load_entity_instance store pos.instance_id with
      | none => collectEntities now store rest
      | some inst =>
          if instanceExpired inst now then
            collectEntities now (remove_entity_from_world store pos.instance_id true) rest
          else
            let (out, store') := collectEntities now store rest
            ((inst, pos) :: out, store')

/-- `RuntimeStateService.get_entities_in_room` (src/systems/runtime_state.py:177-201):
load the positions of the room, then walk them with `collectEntities`.
Returns the combined instance/position list and the store after the
pay-as-you-query expiry culling. -/
def get_entities_in_room (store : EntityStore) (room_id : String) (now : ℤ) :
    List (EntityInstance × EntityPosition) × EntityStore :=
  collectEntities now store (load_entity_positions_for_room store room_id)

/-! ### Encounter service (src/systems/encounter_system.py) -/

/-- `ENCOUNTER_COOLDOWN_SECONDS` (src/systems/encounter_system.py:9). -/
def ENCOUNTER_COOLDOWN_SECONDS : ℤ := 120

/-- One row of a zone encounter table: `(min_roll, max_roll, encounter_type,
composition_key)` (src/systems/encounter_system.py:51-54). -/
structure EncRow where
  min_roll : ℕ
  max_roll : ℕ
  encounter_type : String
  composition_key : Option String
deriving DecidableEq, Repr

/-- A composition: a list of `(template_id, min_count, max_count)`
(src/systems/encounter_system.py:33-37). -/
abbrev Composition : Type := List (String × ℕ × ℕ)

/-- Row matching of the d100 roll (src/systems/encounter_system.py:96-100):
the first row with `min_roll ≤ roll ≤ max_roll`. -/
def matchEncounterRow (table : List EncRow) (roll : ℕ) : Option EncRow :=
  table.find? fun r => decide (r.min_roll ≤ roll) && decide (roll ≤ r.max_roll)

/-- `EncounterService.roll_random_encounter` (src/systems/encounter_system.py:64-146),
cooldown and stamping behaviour.  Oracle inputs: `chanceFailed` is the draw
`random.random() > ENCOUNTER_ROLL_CHANCE`, `d100` the table roll.  Returns the
`last_encounter_roll_at` value of the room state after the call together with
whether a combat group was spawned.  The guard sequence of the source: return
on a failed chance draw; return while `now - last_roll <
ENCOUNTER_COOLDOWN_SECONDS`; return (without stamping) when the d100 matches no
row; stamp and return on a non-combat or keyless row; return (without
stamping) when the composition key is unknown; otherwise spawn and stamp. -/
def roll_random_encounter (last_roll now : ℤ) (chanceFailed : Bool) (d100 : ℕ)
    (table : List EncRow) (comps : List (String × Composition)) : ℤ × Bool :=
  if chanceFailed then (last_roll, false)
  else if now - last_roll < ENCOUNTER_COOLDOWN_SECONDS then (last_roll, false)
  else
    match matchEncounterRow table d100 with
    | none => (last_roll, false)
    | some row =>
        match row.composition_key with
        | none => (now, false)
        | some key =>
            if row.encounter_type ≠ "combat" then (now, false)
            else
              match alistLookup comps key with
              | none => (last_roll, false)
              | some _ => (now, true)

/-! ### World clock (src/systems/time_system.py) -/

/-- The acceleration factor (src/systems/time_system.py:14): one real second is
three world seconds. -/
def worldTimeRatio : ℤ := 3

/-- The clock state of `WorldTime` (src/systems/time_system.py:16-24). -/
structure WorldTimeState where
  start_real_time : ℤ
  start_world_seconds : ℤ
deriving DecidableEq, Repr

/-- `WorldTime.get_world_seconds` (src/systems/time_system.py:26-31):
`start_world_seconds + int((real_now - start_real_time) * TIME_RATIO)`. -/
def get_world_seconds (s : WorldTimeState) (real_now : ℤ) : ℤ :=
  s.start_world_seconds + (real_now - s.start_real_time) * worldTimeRatio

/-- `WorldTime.set_world_seconds` (src/systems/time_system.py:33-37): store the
new value and rebase `start_real_time` to the current real time.  The source
performs no validation of the argument. -/
def set_world_seconds (_s : WorldTimeState) (world_seconds : ℤ)
    (real_now : ℤ) : WorldTimeState :=
  { start_real_time := real_now, start_world_seconds := world_seconds }

/-! ## Theorems -/

/-- Characterisation of the hit contest as an arithmetic proposition. -/
theorem attackHits_iff (roll_A eff_A roll_T eff_T : ℕ) :
    attackHits roll_A eff_A roll_T eff_T = true ↔
    roll_A ≤ eff_A ∧ (roll_A < roll_T ∨ eff_T < roll_T) := by
  unfold attackHits
  split_ifs with h1 h2 <;> simp_all

/-- The hit flag of a resolved attack is exactly `attackHits`. -/
theorem processAttack_hit (roll_A eff_A roll_T eff_T : ℕ)
    (weaponDamageRoll : Option ℤ) (physical : ℤ) (critProc : Bool)
    (armorReduce : ℤ → ℤ) (targetHealth : ℤ) :
    (processAttack roll_A eff_A roll_T eff_T weaponDamageRoll physical
      critProc armorReduce targetHealth).hit =
    attackHits roll_A eff_A roll_T eff_T := by
  unfold processAttack
  split_ifs with h
  · simp [h]
  · simp [Bool.not_eq_true] at h
    simp [h]

/-- On a confirmed hit, `processAttack` produces the record built from the
critical/glancing flags and the mitigated damage. -/
theorem processAttack_of_hit (roll_A eff_A roll_T eff_T : ℕ)
    (weaponDamageRoll : Option ℤ) (physical : ℤ) (critProc : Bool)
    (armorReduce : ℤ → ℤ) (targetHealth : ℤ)
    (h : attackHits roll_A eff_A roll_T eff_T = true) :
    processAttack roll_A eff_A roll_T eff_T weaponDamageRoll physical
      critProc armorReduce targetHealth =
    { hit := true,
      critical := isCriticalHit roll_A eff_A critProc,
      glancing := isGlancingHit roll_T eff_T,
      damage := armorReduce (hitDamage weaponDamageRoll physical
        (isCriticalHit roll_A eff_A critProc) (isGlancingHit roll_T eff_T)),
      targetHealth := max 0 (targetHealth - armorReduce (hitDamage
        weaponDamageRoll physical (isCriticalHit roll_A eff_A critProc)
        (isGlancingHit roll_T eff_T))) } := by
  unfold processAttack
  rw [if_pos h]

/-- C1: for every attack resolved by `_process_attack`: if `roll_A > eff_A`
the attack misses; if `roll_A ≤ eff_A` and `roll_T > eff_T` the attack hits;
and if `roll_A ≤ eff_A` and `roll_T ≤ eff_T` the attack hits iff
`roll_A < roll_T`. -/
theorem hit_contest_correct (roll_A eff_A roll_T eff_T : ℕ)
    (weaponDamageRoll : Option ℤ) (physical : ℤ) (critProc : Bool)
    (armorReduce : ℤ → ℤ) (targetHealth : ℤ) :
    (eff_A < roll_A →
      (processAttack roll_A eff_A roll_T eff_T weaponDamageRoll physical
        critProc armorReduce targetHealth).hit = false) ∧
    (roll_A ≤ eff_A → eff_T < roll_T →
      (processAttack roll_A eff_A roll_T eff_T weaponDamageRoll physical
        critProc armorReduce targetHealth).hit = true) ∧
    (roll_A ≤ eff_A → roll_T ≤ eff_T →
      ((processAttack roll_A eff_A roll_T eff_T weaponDamageRoll physical
        critProc armorReduce targetHealth).hit = true ↔ roll_A < roll_T)) := by
  rw [processAttack_hit]
  refine ⟨fun h => ?_, fun h1 h2 => ?_, fun h1 h2 => ?_⟩
  · cases hb : attackHits roll_A eff_A roll_T eff_T
    · rfl
    · exact absurd ((attackHits_iff _ _ _ _).mp hb).1 (by omega)
  · exact (attackHits_iff _ _ _ _).mpr ⟨h1, Or.inr h2⟩
  · rw [attackHits_iff]
    constructor
    · rintro ⟨-, h | h⟩
      · exact h
      · omega
    · intro h
      exact ⟨h1, Or.inl h⟩

/-- C1 witness: the scenario S1 rolls (`roll_A = 20 ≤ eff_A = 50`,
`roll_T = 60 > eff_T = 30`) produce a hit. -/
theorem hit_contest_correct_witness :
    (processAttack 20 50 60 30 none 10 false id 100).hit = true :=
  (hit_contest_correct 20 50 60 30 none 10 false id 100).2.1
    (by decide) (by decide)

/-- C3 counterexample: with equal rolls `roll_A = roll_T = 60`, accuracy
succeeding (`eff_A = 70`) and the dodge check failed (`roll_T = 60 > eff_T =
30`), `_process_attack` registers a HIT — refuting the claim that equal rolls
always miss regardless of the dodge check outcome. -/
theorem equal_rolls_counterexample :
    (processAttack 60 70 60 30 none 10 false id 100).hit = true := by decide

/-- C3 amended: when the accuracy and dodge rolls are equal, the attack misses
iff the accuracy check failed or the dodge check succeeded; with accuracy
succeeding and the dodge check failed (`roll_T > eff_T`), the equal-rolled
attack hits. -/
theorem equal_rolls_hit_iff (roll_A eff_A roll_T eff_T : ℕ)
    (weaponDamageRoll : Option ℤ) (physical : ℤ) (critProc : Bool)
    (armorReduce : ℤ → ℤ) (targetHealth : ℤ) (heq : roll_A = roll_T) :
    (processAttack roll_A eff_A roll_T eff_T weaponDamageRoll physical
      critProc armorReduce targetHealth).hit = true ↔
    roll_A ≤ eff_A ∧ eff_T < roll_T := by
  subst heq
  rw [processAttack_hit, attackHits_iff]
  constructor
  · rintro ⟨h1, h | h⟩
    · omega
    · exact ⟨h1, h⟩
  · rintro ⟨h1, h2⟩
    exact ⟨h1, Or.inr h2⟩

/-- C3 amended witness: equal rolls 60 with `eff_A = 70`, `eff_T = 30`. -/
theorem equal_rolls_hit_iff_witness :
    (processAttack 60 70 60 30 (some 5) 10 false id 100).hit = true :=
  (equal_rolls_hit_iff 60 70 60 30 (some 5) 10 false id 100 rfl).mpr
    ⟨by decide, by decide⟩

/-- C2 counterexample: at the scenario S1 input (attacker `eff_A = 50`,
`physical = 10` so the attribute bonus is 2, unarmed, `roll_A = 20`,
`roll_T = 60`, `eff_T = 30`, unarmored target) the applied damage is 1,
not the claimed `1 + get_attribute_bonus 10 = 3`: the unarmed branch of
`_process_attack` never adds the physical attribute bonus. -/
theorem unarmed_damage_counterexample :
    (processAttack 20 50 60 30 none 10 false id 100).damage = 1 ∧
    (1 : ℤ) ≠ 1 + get_attribute_bonus 10 := by decide

/-- C2 amended: every unarmed attack that hits and is neither critical nor
glancing deals exactly 1 damage to an unarmored target, independent of the
physical attribute; the target health drops by that flat 1. -/
theorem unarmed_damage_flat (roll_A eff_A roll_T eff_T : ℕ) (physical : ℤ)
    (critProc : Bool) (targetHealth : ℤ)
    (hhit : (processAttack roll_A eff_A roll_T eff_T none physical critProc
      id targetHealth).hit = true)
    (hcrit : (processAttack roll_A eff_A roll_T eff_T none physical critProc
      id targetHealth).critical = false)
    (hglance : (processAttack roll_A eff_A roll_T eff_T none physical critProc
      id targetHealth).glancing = false) :
    (processAttack roll_A eff_A roll_T eff_T none physical critProc
      id targetHealth).damage = 1 ∧
    (processAttack roll_A eff_A roll_T eff_T none physical critProc
      id targetHealth).targetHealth = max 0 (targetHealth - 1) := by
  by_cases h : attackHits roll_A eff_A roll_T eff_T = true
  · rw [processAttack_of_hit _ _ _ _ _ _ _ _ _ h] at hcrit hglance ⊢
    simp only at hcrit hglance
    simp only [hitDamage, hcrit, hglance, if_false, id]
    exact ⟨rfl, rfl⟩
  · rw [processAttack_hit] at hhit
    exact absurd hhit h

/-- C2 amended witness: the S1 input, where the attack hits without critical
or glancing flags and deals 1 damage, dropping health 100 to 99. -/
theorem unarmed_damage_flat_witness :
    (processAttack 20 50 60 30 none 10 false id 100).damage = 1 ∧
    (processAttack 20 50 60 30 none 10 false id 100).targetHealth =
      max 0 (100 - 1) :=
  unarmed_damage_flat 20 50 60 30 10 false 100 (by decide) (by decide)
    (by decide)

/-- C10: whenever `_process_attack` applies damage (the attack hit), the
resulting target health is clamped to a minimum of 0, for every target health
and every damage amount. -/
theorem attack_health_clamped (roll_A eff_A roll_T eff_T : ℕ)
    (weaponDamageRoll : Option ℤ) (physical : ℤ) (critProc : Bool)
    (armorReduce : ℤ → ℤ) (targetHealth : ℤ)
    (hhit : (processAttack roll_A eff_A roll_T eff_T weaponDamageRoll physical
      critProc armorReduce targetHealth).hit = true) :
    0 ≤ (processAttack roll_A eff_A roll_T eff_T weaponDamageRoll physical
      critProc armorReduce targetHealth).targetHealth := by
  by_cases h : attackHits roll_A eff_A roll_T eff_T = true
  · rw [processAttack_of_hit _ _ _ _ _ _ _ _ _ h]
    exact le_max_left 0 _
  · rw [processAttack_hit] at hhit
    exact absurd hhit h

/-- C10 witness: a hit for 1 damage on a target at 0 health leaves health at
the clamp value 0. -/
theorem attack_health_clamped_witness :
    0 ≤ (processAttack 20 50 60 30 none 10 false id 0).targetHealth :=
  attack_health_clamped 20 50 60 30 none 10 false id 0 (by decide)

/-- C8 counterexample: `set_world_seconds` applied to the negative value −5
does not fail and does not leave the clock state unchanged — it stores −5 as
`start_world_seconds`.  The source performs no validation. -/
theorem set_world_seconds_counterexample :
    set_world_seconds ⟨100, 0⟩ (-5) 200 ≠ ⟨100, 0⟩ ∧
    (set_world_seconds ⟨100, 0⟩ (-5) 200).start_world_seconds = -5 := by
  decide

/-- Any sequence of `try_consume_spawn_eligibility` calls with a fixed
`max_alive` keeps `alive_count` at or below `max_alive`. -/
theorem runSpawnCalls_bounded (max_alive : ℕ) :
    ∀ (calls : List (ℤ × ℤ)) (t : SpawnTimer), t.alive_count ≤ max_alive →
      (runSpawnCalls max_alive t calls).alive_count ≤ max_alive := by
  intro calls
  induction calls with
  | nil => intro t h; exact h
  | cons c rest ih =>
      intro t h
      unfold runSpawnCalls
      apply ih
      unfold try_consume_spawn_eligibility
      split_ifs with hc
      · simpa using hc.1
      · exact h

/-- C5: `try_consume_spawn_eligibility` succeeds iff `alive_count < max_alive`
and `now ≥ next_spawn_at`; on success the same commit sets `alive_count + 1`,
`last_spawn_at = now` and `next_spawn_at = now + cooldown`; on failure the
timer is unchanged; consequently `alive_count` never exceeds `max_alive`
across any sequence of calls. -/
theorem spawn_eligibility_correct (t : SpawnTimer) (now : ℤ) (max_alive : ℕ)
    (cooldown : ℤ) :
    ((try_consume_spawn_eligibility t now max_alive cooldown).1 = true ↔
      t.alive_count < max_alive ∧ t.next_spawn_at ≤ now) ∧
    ((try_consume_spawn_eligibility t now max_alive cooldown).1 = true →
      (try_consume_spawn_eligibility t now max_alive cooldown).2 =
        ⟨now, now + cooldown, t.alive_count + 1⟩) ∧
    ((try_consume_spawn_eligibility t now max_alive cooldown).1 = false →
      (try_consume_spawn_eligibility t now max_alive cooldown).2 = t) ∧
    (∀ calls : List (ℤ × ℤ), t.alive_count ≤ max_alive →
      (runSpawnCalls max_alive t calls).alive_count ≤ max_alive) := by
  refine ⟨?_, ?_, ?_, fun calls h => runSpawnCalls_bounded max_alive calls t h⟩ <;>
    · unfold try_consume_spawn_eligibility
      split_ifs with hc <;> simp_all

/-- C5 witness: from the default all-zero timer, a call at `now = 5` with
`max_alive = 1` and a 60-second cooldown succeeds and commits the updated
timer; a bounded sequence stays at or below `max_alive`. -/
theorem spawn_eligibility_correct_witness :
    (try_consume_spawn_eligibility ⟨0, 0, 0⟩ 5 1 60).2 = ⟨5, 65, 1⟩ ∧
    (runSpawnCalls 1 ⟨0, 0, 0⟩ [(5, 60), (6, 60), (70, 60)]).alive_count ≤ 1 :=
  ⟨(spawn_eligibility_correct ⟨0, 0, 0⟩ 5 1 60).2.1 (by decide),
   (spawn_eligibility_correct ⟨0, 0, 0⟩ 5 1 60).2.2.2 [(5, 60), (6, 60), (70, 60)]
     (by decide)⟩

/-- C7: when a call to `maybe_reset_room` performs a reset, any following call
before the new `next_reset_at` leaves the room state unchanged, the reset
bumps `state_version` exactly once, and re-establishes
`last_reset_at ≤ next_reset_at`. -/
theorem room_reset_idempotent (s : RoomState) (now now2 : ℤ)
    (h1 : s.next_reset_at ≤ now)
    (h2 : now2 < (maybe_reset_room s now).next_reset_at) :
    maybe_reset_room (maybe_reset_room s now) now2 = maybe_reset_room s now ∧
    (maybe_reset_room s now).state_version = s.state_version + 1 ∧
    (maybe_reset_room s now).last_reset_at ≤
      (maybe_reset_room s now).next_reset_at := by
  unfold maybe_reset_room at *
  rw [if_pos h1] at h2 ⊢
  simp only at h2
  refine ⟨?_, rfl, ?_⟩
  · rw [if_neg (by simp only; omega)]
  · simp only
    unfold DEFAULT_RESET_SECONDS
    omega

/-- C7 witness: a room due for reset at `now = 150` (window expired at 100)
resets once; the immediate second call at the same instant is a no-op. -/
theorem room_reset_idempotent_witness :
    maybe_reset_room (maybe_reset_room ⟨7, 0, 0, 0, 100, 1⟩ 150) 150 =
      maybe_reset_room ⟨7, 0, 0, 0, 100, 1⟩ 150 ∧
    (maybe_reset_room ⟨7, 0, 0, 0, 100, 1⟩ 150).state_version = 1 + 1 ∧
    (maybe_reset_room ⟨7, 0, 0, 0, 100, 1⟩ 150).last_reset_at ≤
      (maybe_reset_room ⟨7, 0, 0, 0, 100, 1⟩ 150).next_reset_at :=
  room_reset_idempotent ⟨7, 0, 0, 0, 100, 1⟩ 150 150 (by decide) (by decide)

/-- C6 counterexample: a call that passes both the base-chance draw
(`chanceFailed = false`) and the cooldown gate (`now - last = 200 ≥ 120`) but
whose d100 roll (50) matches no table row returns WITHOUT stamping
`last_encounter_roll_at`: the stored value stays 0 instead of becoming 200. -/
theorem encounter_stamp_counterexample :
    roll_random_encounter 0 200 false 50 [⟨1, 10, "combat", some "g"⟩]
      [("g", [("goblin", 1, 2)])] = (0, false) ∧ (0 : ℤ) ≠ 200 := by decide

/-- C6 amended: a call that passes the base-chance draw and the cooldown gate
stamps `last_encounter_roll_at = now` provided its d100 roll matches a table
row whose composition resolves (or which is non-combat or keyless); after such
a stamped call, no encounter roll in the same room passes the cooldown gate
within the next `ENCOUNTER_COOLDOWN_SECONDS`. -/
theorem encounter_stamp_correct (last now : ℤ) (d100 : ℕ)
    (table : List EncRow) (comps : List (String × Composition)) (row : EncRow)
    (hcool : ENCOUNTER_COOLDOWN_SECONDS ≤ now - last)
    (hrow : matchEncounterRow table d100 = some row)
    (hok : row.composition_key = none ∨ row.encounter_type ≠ "combat" ∨
      ∃ key, row.composition_key = some key ∧
        (alistLookup comps key).isSome = true) :
    (roll_random_encounter last now false d100 table comps).1 = now ∧
    ∀ (now2 : ℤ) (chance2 : Bool) (d2 : ℕ),
      now2 - now < ENCOUNTER_COOLDOWN_SECONDS →
      roll_random_encounter now now2 chance2 d2 table comps = (now, false) := by
  constructor
  · unfold roll_random_encounter
    rw [if_neg (by simp), if_neg (by omega), hrow]
    dsimp only
    rcases hok with hnone | hne | ⟨key, hkey, hsome⟩
    · rw [hnone]
    · cases hkeyc : row.composition_key with
      | none => rfl
      | some key =>
          dsimp only
          rw [if_pos hne]
    · rw [hkey]
      dsimp only
      by_cases hc : row.encounter_type = "combat"
      · rw [if_neg (by simp [hc])]
        rcases Option.isSome_iff_exists.mp hsome with ⟨comp, hcomp⟩
        rw [hcomp]
      · rw [if_pos hc]
  · intro now2 chance2 d2 hlt
    unfold roll_random_encounter
    cases chance2
    · rw [if_neg (by simp), if_pos (by omega)]
    · rw [if_pos rfl]

/-- C6 amended witness: a stamped combat roll at `now = 200` (d100 = 5 hits
the 1-10 combat row with composition key resolving), after which a fresh
attempt at `now2 = 250 < 200 + 120` is blocked by the cooldown gate. -/
theorem encounter_stamp_correct_witness :
    (roll_random_encounter 0 200 false 5 [⟨1, 10, "combat", some "g"⟩]
      [("g", [("goblin", 1, 2)])]).1 = 200 ∧
    roll_random_encounter 200 250 false 7 [⟨1, 10, "combat", some "g"⟩]
      [("g", [("goblin", 1, 2)])] = (200, false) :=
  ⟨(encounter_stamp_correct 0 200 5 [⟨1, 10, "combat", some "g"⟩]
      [("g", [("goblin", 1, 2)])] ⟨1, 10, "combat", some "g"⟩ (by decide)
      (by decide) (Or.inr (Or.inr ⟨"g", rfl, by decide⟩))).1,
   (encounter_stamp_correct 0 200 5 [⟨1, 10, "combat", some "g"⟩]
      [("g", [("goblin", 1, 2)])] ⟨1, 10, "combat", some "g"⟩ (by decide)
      (by decide) (Or.inr (Or.inr ⟨"g", rfl, by decide⟩))).2 250 false 7
      (by decide)⟩

/-- `getD` through a `map`, for indices in range. -/
theorem getD_map_of_lt {α β : Type} (f : α → β) (l : List α) (i : ℕ)
    (hi : i < l.length) (d : β) (d' : α) :
    (l.map f).getD i d = f (l.getD i d') := by
  induction l generalizing i with
  | nil => simp at hi
  | cons a t ih =>
      cases i with
      | zero => rfl
      | succ n => simpa using ih n (by simpa using hi)

/-- C4 counterexample: incoming damage 2 against two contributing pieces of
slashing DR 1 each (`total_dr = 2`).  The returned damage is `max(1, 2 - 2) =
1`, so `absorbed = 1`; but each piece gets the share `round(1·1/2) = round(0.5)
= 0` (Python rounds halves to even), so no armor_hp decreases: the per-piece
shares sum to 0, not to the absorbed 1. -/
theorem armor_share_sum_counterexample :
    (apply_armor_damage_reduction
      [⟨true, [(DamageType.slashing, 1)], 10⟩,
       ⟨true, [(DamageType.slashing, 1)], 10⟩] 2 DamageType.slashing).1 = 1 ∧
    (apply_armor_damage_reduction
      [⟨true, [(DamageType.slashing, 1)], 10⟩,
       ⟨true, [(DamageType.slashing, 1)], 10⟩] 2 DamageType.slashing).2 =
      [⟨true, [(DamageType.slashing, 1)], 10⟩,
       ⟨true, [(DamageType.slashing, 1)], 10⟩] ∧
    (2 : ℤ) - 1 ≠ 0 := by decide

/-- C4 amended: with at least one contributing piece, the returned damage is
`max(1, damage - total_dr)`, and each contributing piece has its `armor_hp`
reduced by exactly its assigned share `max(0, round(absorbed · piece_dr /
total_dr))` (clamped at zero hp), non-contributing pieces being untouched; the
shares are NOT guaranteed to sum to `absorbed = damage - returned damage`. -/
theorem armor_reduction_correct (pieces : List ArmorPiece) (damage : ℤ)
    (dt : DamageType)
    (hc : (pieces.filter fun p => contributes p dt) ≠ []) :
    (apply_armor_damage_reduction pieces damage dt).1 =
      max 1 (damage - totalDR pieces dt) ∧
    (apply_armor_damage_reduction pieces damage dt).2.length = pieces.length ∧
    ∀ i, i < pieces.length →
      ((apply_armor_damage_reduction pieces damage dt).2.getD i
          ⟨false, [], 0⟩).armor_hp =
        if contributes (pieces.getD i ⟨false, [], 0⟩) dt then
          (pieces.getD i ⟨false, [], 0⟩).armor_hp -
            armorShare (damage - (apply_armor_damage_reduction pieces damage dt).1)
              (drFor (pieces.getD i ⟨false, [], 0⟩) dt) (totalDR pieces dt)
        else (pieces.getD i ⟨false, [], 0⟩).armor_hp := by
  have hfst : (apply_armor_damage_reduction pieces damage dt).1 =
      max 1 (damage - totalDR pieces dt) := by
    unfold apply_armor_damage_reduction
    rw [if_neg hc]
  have hsnd : (apply_armor_damage_reduction pieces damage dt).2 =
      pieces.map fun p =>
        if contributes p dt then
          reduce_armor_hp p
            (armorShare (damage - max 1 (damage - totalDR pieces dt))
              (drFor p dt) (totalDR pieces dt))
        else p := by
    unfold apply_armor_damage_reduction
    rw [if_neg hc]
  refine ⟨hfst, by rw [hsnd]; simp, ?_⟩
  intro i hi
  rw [hfst, hsnd, getD_map_of_lt _ _ i hi _ ⟨false, [], 0⟩]
  split_ifs with hcontrib
  · rfl
  · rfl

/-- C4 amended witness: the S2 armor layout — chest DR 2 and shield DR 1
against 7 slashing damage: returned damage 4; chest absorbs 2, shield 1. -/
theorem armor_reduction_correct_witness :
    (apply_armor_damage_reduction
      [⟨true, [(DamageType.slashing, 2)], 10⟩,
       ⟨true, [(DamageType.slashing, 1)], 10⟩] 7 DamageType.slashing).1 =
      max 1 (7 - totalDR
        [⟨true, [(DamageType.slashing, 2)], 10⟩,
         ⟨true, [(DamageType.slashing, 1)], 10⟩] DamageType.slashing) ∧
    ((apply_armor_damage_reduction
      [⟨true, [(DamageType.slashing, 2)], 10⟩,
       ⟨true, [(DamageType.slashing, 1)], 10⟩] 7 DamageType.slashing).2.getD 0
        ⟨false, [], 0⟩).armor_hp = 8 :=
  ⟨(armor_reduction_correct
      [⟨true, [(DamageType.slashing, 2)], 10⟩,
       ⟨true, [(DamageType.slashing, 1)], 10⟩] 7 DamageType.slashing
      (by decide)).1,
   by
    rw [(armor_reduction_correct
      [⟨true, [(DamageType.slashing, 2)], 10⟩,
       ⟨true, [(DamageType.slashing, 1)], 10⟩] 7 DamageType.slashing
      (by decide)).2.2 0 (by decide)]
    decide⟩

/-- C8 amended: for every value `v` — negative values included —
`set_world_seconds` stores `start_world_seconds = v` and rebases
`start_real_time` to the current real time, so the clock reads `v` at that
instant; no `Invalid` error exists on this path. -/
theorem set_world_seconds_sets (s : WorldTimeState) (v real_now : ℤ) :
    (set_world_seconds s v real_now).start_world_seconds = v ∧
    (set_world_seconds s v real_now).start_real_time = real_now ∧
    get_world_seconds (set_world_seconds s v real_now) real_now = v := by
  refine ⟨rfl, rfl, ?_⟩
  unfold get_world_seconds set_world_seconds
  ring

/-- Deleting a key removes it from lookup. -/
theorem alistLookup_remove_self {κ α : Type} [DecidableEq κ]
    (l : List (κ × α)) (k : κ) : alistLookup (alistRemove l k) k = none := by
  induction l with
  | nil => rfl
  | cons e t ih =>
      by_cases h : e.1 = k
      · simpa [alistRemove, h] using ih
      · simpa [alistRemove, alistLookup, h] using ih

/-- Deleting one key leaves the lookup of any other key unchanged. -/
theorem alistLookup_remove_ne {κ α : Type} [DecidableEq κ]
    (l : List (κ × α)) (k j : κ) (h : ¬ j = k) :
    alistLookup (alistRemove l k) j = alistLookup l j := by
  induction l with
  | nil => rfl
  | cons e t ih =>
      simp only [alistRemove]
      by_cases he : e.1 = k
      · have hj : ¬ e.1 = j := fun hj' => h (by rw [← hj']; exact he)
        rw [if_pos he, ih]
        simp only [alistLookup]
        rw [if_neg hj]
      · rw [if_neg he]
        simp only [alistLookup]
        by_cases hj : e.1 = j
        · rw [if_pos hj, if_pos hj]
        · rw [if_neg hj, if_neg hj]
          exact ih

/-- `remove_entity_from_world` with instance deletion removes the instance
record. -/
theorem load_remove_self (store : EntityStore) (k : String) :
    load_entity_instance (remove_entity_from_world store k true) k = none := by
  unfold load_entity_instance remove_entity_from_world
  exact alistLookup_remove_self store.instances k

/-- `remove_entity_from_world` leaves other instance records readable. -/
theorem load_remove_ne (store : EntityStore) (k j : String) (h : ¬ j = k) :
    load_entity_instance (remove_entity_from_world store k true) j =
      load_entity_instance store j := by
  unfold load_entity_instance remove_entity_from_world
  exact alistLookup_remove_ne store.instances k j h

/-- Position records after `remove_entity_from_world`: exactly those of the
store whose instance id differs from the removed one. -/
theorem mem_positions_remove (store : EntityStore) (k : String)
    (del : Bool) (q : EntityPosition) :
    q ∈ (remove_entity_from_world store k del).positions ↔
      q ∈ store.positions ∧ ¬ q.instance_id = k := by
  unfold remove_entity_from_world
  simp [List.mem_filter]

/-- Loop step: a position with no instance record is skipped. -/
theorem collectEntities_cons_none (now : ℤ) (store : EntityStore)
    (p : EntityPosition) (rest : List EntityPosition)
    (h : load_entity_instance store p.instance_id = none) :
    collectEntities now store (p :: rest) = collectEntities now store rest := by
  simp only [collectEntities, h]

/-- Loop step: an expired instance is removed from the world and skipped. -/
theorem collectEntities_cons_expired (now : ℤ) (store : EntityStore)
    (p : EntityPosition) (rest : List EntityPosition) (i : EntityInstance)
    (h : load_entity_instance store p.instance_id = some i)
    (hexp : instanceExpired i now = true) :
    collectEntities now store (p :: rest) =
      collectEntities now (remove_entity_from_world store p.instance_id true)
        rest := by
  simp only [collectEntities, h, hexp, if_true]

/-- Loop step: a live instance is emitted, combined with its position. -/
theorem collectEntities_cons_live (now : ℤ) (store : EntityStore)
    (p : EntityPosition) (rest : List EntityPosition) (i : EntityInstance)
    (h : load_entity_instance store p.instance_id = some i)
    (hlive : instanceExpired i now = false) :
    collectEntities now store (p :: rest) =
      ((i, p) :: (collectEntities now store rest).1,
       (collectEntities now store rest).2) := by
  simp only [collectEntities, h, hlive]
  rw [if_neg (by simp)]

/-- A live instance with a position among the walked ones is part of the
output of the `get_entities_in_room` loop, combined with that position. -/
theorem collect_live_mem (now : ℤ) (iid : String) (inst : EntityInstance)
    (hlive : instanceExpired inst now = false) :
    ∀ (ps : List EntityPosition) (store : EntityStore) (pos : EntityPosition),
      pos ∈ ps → pos.instance_id = iid →
      load_entity_instance store iid = some inst →
      (inst, pos) ∈ (collectEntities now store ps).1 := by
  intro ps
  induction ps with
  | nil => intro store pos h _ _; simp at h
  | cons p rest ih =>
      intro store pos hmem hid hlook
      rcases List.mem_cons.mp hmem with heq | hrest
      · subst heq
        have hl : load_entity_instance store pos.instance_id = some inst := by
          rw [hid]; exact hlook
        rw [collectEntities_cons_live now store pos rest inst hl hlive]
        exact List.mem_cons_self _ _
      · rcases hl : load_entity_instance store p.instance_id with _ | i'
        · rw [collectEntities_cons_none now store p rest hl]
          exact ih store pos hrest hid hlook
        · rcases hexp : instanceExpired i' now with _ | _
          · rw [collectEntities_cons_live now store p rest i' hl hexp]
            exact List.mem_cons_of_mem _ (ih store pos hrest hid hlook)
          · rw [collectEntities_cons_expired now store p rest i' hl hexp]
            apply ih _ pos hrest hid
            by_cases hpq : p.instance_id = iid
            · rw [hpq] at hl
              rw [hl] at hlook
              injection hlook with h'
              subst h'
              rw [hexp] at hlive
              exact absurd hlive (by simp)
            · rw [load_remove_ne store p.instance_id iid
                (fun hq => hpq hq.symm)]
              exact hlook

/-- While an instance id is either absent or bound to an expired record, the
loop never emits an output row carrying that id. -/
theorem collect_out_no_expired (now : ℤ) (iid : String) (inst : EntityInstance)
    (hexp : instanceExpired inst now = true) :
    ∀ (ps : List EntityPosition) (store : EntityStore),
      (load_entity_instance store iid = some inst ∨
        load_entity_instance store iid = none) →
      ∀ e ∈ (collectEntities now store ps).1, ¬ e.2.instance_id = iid := by
  intro ps
  induction ps with
  | nil => intro store _ e he; simp [collectEntities] at he
  | cons p rest ih =>
      intro store hinv e he
      rcases hl : load_entity_instance store p.instance_id with _ | i'
      · rw [collectEntities_cons_none now store p rest hl] at he
        exact ih store hinv e he
      · rcases hexp' : instanceExpired i' now with _ | _
        · rw [collectEntities_cons_live now store p rest i' hl hexp'] at he
          simp only [List.mem_cons] at he
          rcases he with he | he
          · subst he
            intro hq
            rw [hq] at hl
            rcases hinv with hsome | hnone
            · rw [hl] at hsome
              injection hsome with h'
              subst h'
              rw [hexp'] at hexp
              exact absurd hexp (by simp)
            · rw [hl] at hnone
              exact Option.noConfusion hnone
          · exact ih store hinv e he
        · rw [collectEntities_cons_expired now store p rest i' hl hexp'] at he
          apply ih (remove_entity_from_world store p.instance_id true) _ e he
          by_cases hpq : p.instance_id = iid
          · rw [← hpq]
            exact Or.inr (load_remove_self store p.instance_id)
          · rw [load_remove_ne store p.instance_id iid (fun hq => hpq hq.symm)]
            exact hinv

/-- Once an instance id is deleted (no record, no positions), the rest of the
loop keeps it deleted. -/
theorem collect_none_preserved (now : ℤ) (iid : String) :
    ∀ (ps : List EntityPosition) (store : EntityStore),
      load_entity_instance store iid = none →
      (∀ q ∈ store.positions, ¬ q.instance_id = iid) →
      load_entity_instance (collectEntities now store ps).2 iid = none ∧
      ∀ q ∈ (collectEntities now store ps).2.positions,
        ¬ q.instance_id = iid := by
  intro ps
  induction ps with
  | nil => intro store h1 h2; exact ⟨h1, h2⟩
  | cons p rest ih =>
      intro store h1 h2
      rcases hl : load_entity_instance store p.instance_id with _ | i'
      · rw [collectEntities_cons_none now store p rest hl]
        exact ih store h1 h2
      · rcases hexp' : instanceExpired i' now with _ | _
        · rw [collectEntities_cons_live now store p rest i' hl hexp']
          exact ih store h1 h2
        · rw [collectEntities_cons_expired now store p rest i' hl hexp']
          apply ih
          · by_cases hpq : p.instance_id = iid
            · rw [← hpq]
              exact load_remove_self store p.instance_id
            · rw [load_remove_ne store p.instance_id iid
                (fun hq => hpq hq.symm)]
              exact h1
          · intro q hq
            exact h2 q ((mem_positions_remove store p.instance_id true q).mp hq).1

/-- An expired instance whose id occurs among the walked positions ends up
fully deleted: no instance record and no position record remain. -/
theorem collect_expired_removed (now : ℤ) (iid : String)
    (inst : EntityInstance) (hexp : instanceExpired inst now = true) :
    ∀ (ps : List EntityPosition) (store : EntityStore),
      load_entity_instance store iid = some inst →
      (∀ q ∈ store.positions, ¬ q.instance_id = iid → True) →
      (∃ p ∈ ps, p.instance_id = iid) →
      load_entity_instance (collectEntities now store ps).2 iid = none ∧
      ∀ q ∈ (collectEntities now store ps).2.positions,
        ¬ q.instance_id = iid := by
  intro ps
  induction ps with
  | nil => intro store _ _ hex; simp at hex
  | cons p rest ih =>
      intro store hlook _ hex
      by_cases hpq : p.instance_id = iid
      · have hl : load_entity_instance store p.instance_id = some inst := by
          rw [hpq]; exact hlook
        rw [collectEntities_cons_expired now store p rest inst hl hexp]
        apply collect_none_preserved now iid rest
        · rw [← hpq]
          exact load_remove_self store p.instance_id
        · intro q hq
          have := (mem_positions_remove store p.instance_id true q).mp hq
          rw [← hpq]
          exact this.2
      · have hex' : ∃ q ∈ rest, q.instance_id = iid := by
          rcases hex with ⟨q, hq, hqid⟩
          rcases List.mem_cons.mp hq with rfl | hq'
          · exact absurd hqid hpq
          · exact ⟨q, hq', hqid⟩
        rcases hl : load_entity_instance store p.instance_id with _ | i'
        · rw [collectEntities_cons_none now store p rest hl]
          exact ih store hlook (fun _ _ _ => trivial) hex'
        · rcases hexp' : instanceExpired i' now with _ | _
          · rw [collectEntities_cons_live now store p rest i' hl hexp']
            exact ih store hlook (fun _ _ _ => trivial) hex'
          · rw [collectEntities_cons_expired now store p rest i' hl hexp']
            apply ih
            · rw [load_remove_ne store p.instance_id iid
                (fun hq => hpq hq.symm)]
              exact hlook
            · exact fun _ _ _ => trivial
            · exact hex'

/-- C9: an instance whose `expires_at` has passed at the moment
`get_entities_in_room` is called, and which is positioned in the queried room,
is omitted from the returned list and has both its position and its instance
record deleted by that call; a non-expired instance positioned in the room is
returned combined with its position record. -/
theorem entities_expiry_correct (store : EntityStore) (room_id : String)
    (now : ℤ) (iid : String) (inst : EntityInstance) (pos : EntityPosition)
    (hlook : load_entity_instance store iid = some inst)
    (hmem : pos ∈ store.positions) (hid : pos.instance_id = iid)
    (hroom : pos.room_id = room_id) :
    (instanceExpired inst now = true →
      (∀ e ∈ (get_entities_in_room store room_id now).1,
        ¬ e.2.instance_id = iid) ∧
      load_entity_instance (get_entities_in_room store room_id now).2 iid =
        none ∧
      ∀ q ∈ (get_entities_in_room store room_id now).2.positions,
        ¬ q.instance_id = iid) ∧
    (instanceExpired inst now = false →
      (inst, pos) ∈ (get_entities_in_room store room_id now).1) := by
  have hmemf : pos ∈ load_entity_positions_for_room store room_id := by
    unfold load_entity_positions_for_room
    simp [List.mem_filter, hmem, hroom]
  constructor
  · intro hexp
    have hdel := collect_expired_removed now iid inst hexp
      (load_entity_positions_for_room store room_id) store hlook
      (fun _ _ _ => trivial) ⟨pos, hmemf, hid⟩
    exact ⟨collect_out_no_expired now iid inst hexp
      (load_entity_positions_for_room store room_id) store (Or.inl hlook),
      hdel.1, hdel.2⟩
  · intro hlive
    exact collect_live_mem now iid inst hlive
      (load_entity_positions_for_room store room_id) store pos hmemf hid hlook

/-- C9 witness: a world with an expired instance `a` (expiry 50 ≤ now = 100)
and a live instance `b`, both positioned in room `r1`: the query deletes `a`
entirely and returns `b` with its position. -/
theorem entities_expiry_correct_witness :
    load_entity_instance
      (get_entities_in_room
        ⟨[("a", ⟨"goblin", "creature", 0, some 50, none⟩),
          ("b", ⟨"rat", "creature", 0, none, none⟩)],
         [⟨"a", "r1"⟩, ⟨"b", "r1"⟩]⟩ "r1" 100).2 "a" = none ∧
    (⟨"rat", "creature", 0, none, none⟩, (⟨"b", "r1"⟩ : EntityPosition)) ∈
      (get_entities_in_room
        ⟨[("a", ⟨"goblin", "creature", 0, some 50, none⟩),
          ("b", ⟨"rat", "creature", 0, none, none⟩)],
         [⟨"a", "r1"⟩, ⟨"b", "r1"⟩]⟩ "r1" 100).1 :=
  ⟨((entities_expiry_correct
      ⟨[("a", ⟨"goblin", "creature", 0, some 50, none⟩),
        ("b", ⟨"rat", "creature", 0, none, none⟩)],
       [⟨"a", "r1"⟩, ⟨"b", "r1"⟩]⟩ "r1" 100 "a"
      ⟨"goblin", "creature", 0, some 50, none⟩ ⟨"a", "r1"⟩ (by decide)
      (by decide) rfl rfl).1 (by decide)).2.1,
   (entities_expiry_correct
      ⟨[("a", ⟨"goblin", "creature", 0, some 50, none⟩),
        ("b", ⟨"rat", "creature", 0, none, none⟩)],
       [⟨"a", "r1"⟩, ⟨"b", "r1"⟩]⟩ "r1" 100 "b"
      ⟨"rat", "creature", 0, none, none⟩ ⟨"b", "r1"⟩ (by decide)
      (by decide) rfl rfl).2 (by decide)⟩

end Tyrant
